import Mathlib

/-!
Verification of the GeoAgents-FloodWarning risk logic and ingestion code.

The Python sources are shallowly embedded:

* Python `None`-able floats become `Option ℚ` (all numeric values in the
  claims are exact decimals, so rationals model the float arithmetic that
  the code actually performs on them).
* Python dicts used as keyed result maps become association lists over
  `String` keys, with `dlookup` (first match; dict keys are unique) and
  `dinsert` (replace-in-place or append, exactly dict assignment).
* HTTP fetchers are abstracted as function parameters returning
  `Except String α` (an exception or a value); the parsing and looping
  code around them is embedded faithfully.
-/

namespace FloodWarning

/-- Risk levels produced by `risk_logic.py` (string constants in the source). -/
inductive Risk where
  | LOW
  | MEDIUM
  | HIGH
  | UNKNOWN
deriving DecidableEq, Repr, Fintype

/-- A band triplet `{low, medium, high}` (`thresholds` dict with required keys). -/
structure Bands where
  low : ℚ
  medium : ℚ
  high : ℚ
deriving DecidableEq, Repr

/-- Embeds `_risk_from_rain(rain_mm, thresholds)` from `src/core/risk_logic.py`:
`None` check, then the two-level band comparison. -/
def risk_from_rain (rain_mm : Option ℚ) (thresholds : Bands) : Risk :=
  match rain_mm with
  | none => .UNKNOWN
  | some r =>
    if r ≤ thresholds.medium then
      if r ≤ thresholds.low then .LOW else .MEDIUM
    else
      if r > thresholds.high then .HIGH else .MEDIUM

/-- Embeds `_risk_from_stage(stage_ft, flood_stage_ft, thresholds)` from
`src/core/risk_logic.py`: `None`/zero guard, then the band comparison on
`ratio = stage_ft / flood_stage_ft`. -/
def risk_from_stage (stage_ft flood_stage_ft : Option ℚ) (thresholds : Bands) : Risk :=
  match stage_ft, flood_stage_ft with
  | some s, some f =>
    if f = 0 then .UNKNOWN
    else
      let ratio := s / f
      if ratio ≤ thresholds.medium then
        if ratio ≤ thresholds.low then .LOW else .MEDIUM
      else
        if ratio > thresholds.high then .HIGH else .MEDIUM
  | _, _ => .UNKNOWN

/-- Embeds the local `rank` function of `classify_gauge`:
`risk_order.index(r) if r in risk_order else -1` with
`risk_order = ["LOW", "MEDIUM", "HIGH"]`. -/
def rank : Risk → Int
  | .LOW => 0
  | .MEDIUM => 1
  | .HIGH => 2
  | .UNKNOWN => -1

/-- Embeds Python `max(a, b, key=rank)`: the second argument replaces the
first only when its key is strictly greater. -/
def combine (a b : Risk) : Risk :=
  if rank b > rank a then b else a

/-- The two band triplets of the thresholds config
(`rainfall_mm_72h` and `river_stage_ratio`; the second is renamed here
to avoid a clash with reserved suffixes). -/
structure Thresholds where
  rainfall_mm_72h : Bands
  stage_ratio_bands : Bands
deriving DecidableEq, Repr

/-- The dict returned by `classify_gauge` (the `inputs` sub-dict is
flattened into `in_`-prefixed fields; the `stage_ratio` key is named
`ratio_value` here). -/
structure RiskAssessment where
  gauge_id : String
  risk : Risk
  rain_risk : Risk
  stage_risk : Risk
  ratio_value : Option ℚ
  in_stage_ft : Option ℚ
  in_flood_stage_ft : Option ℚ
  in_rain_mm_72h : Option ℚ
deriving DecidableEq, Repr

/-- Embeds `classify_gauge` from `src/core/risk_logic.py`: the two sub-risk
calls, `combined = max(rain_risk, stage_risk, key=rank)`, and the
`stage_ratio` expression `(stage_ft / flood_stage_ft) if stage_ft is not
None and flood_stage_ft else None` (Python truthiness: `flood_stage_ft`
is falsy when `None` or zero). -/
def classify_gauge (gauge_id : String) (stage_ft flood_stage_ft rain_mm_72h : Option ℚ)
    (thresholds : Thresholds) : RiskAssessment :=
  let rain_risk := risk_from_rain rain_mm_72h thresholds.rainfall_mm_72h
  let stage_risk := risk_from_stage stage_ft flood_stage_ft thresholds.stage_ratio_bands
  let combined := combine rain_risk stage_risk
  { gauge_id := gauge_id
    risk := combined
    rain_risk := rain_risk
    stage_risk := stage_risk
    ratio_value :=
      match stage_ft, flood_stage_ft with
      | some s, some f => if f = 0 then none else some (s / f)
      | _, _ => none
    in_stage_ft := stage_ft
    in_flood_stage_ft := flood_stage_ft
    in_rain_mm_72h := rain_mm_72h }

/-- Shape of the duration half of an NWS `validTime` string, after
`valid_time.split("/")`. The numeral substring is abstracted as its
rational value: `hoursEnc n` stands for `"PT<n>H"`, `minutesEnc n` for
`"PT<n>M"`, and `otherEnc` for any string matching neither suffix test
(for which `_parse_valid_time` leaves `hours = 0`). -/
inductive DurationEnc where
  | hoursEnc (n : ℚ)
  | minutesEnc (n : ℚ)
  | otherEnc
deriving DecidableEq, Repr

/-- A split `validTime` string: parsed start instant (hours on a rational
time line; `datetime.fromisoformat` plus the UTC default is abstracted as
the value itself) and the duration part. -/
structure ValidTime where
  start : ℚ
  dur : DurationEnc
deriving DecidableEq, Repr

/-- Embeds `_parse_valid_time` from `src/data_ingestion/nws_fetch.py`,
returning `(start_dt, duration)` with the duration in hours:
`float(duration_str[2:-1])` for a `PT…H` encoding, the same divided by 60
for a `PT…M` encoding, else 0. -/
def parse_valid_time (vt : ValidTime) : ℚ × ℚ :=
  let hours :=
    match vt.dur with
    | .hoursEnc n => n
    | .minutesEnc n => n / 60
    | .otherEnc => 0
  (vt.start, hours)

/-- One entry of `forecast["qpf"]` as consumed by `compute_72h_rain_mm`:
`start` (hours on the rational time line), `duration` (hours) and
`value_mm`; each field is optional because the loop guards each with an
`is None` check before use. -/
structure QpfEntry where
  start : Option ℚ
  dur_hours : Option ℚ
  value_mm : Option ℚ
deriving DecidableEq, Repr

/-- One iteration of the loop body of `compute_72h_rain_mm` from
`src/data_ingestion/nws_fetch.py`: the `None` guards, the overlap of
`[start, start+duration]` with `[now, now+72h]`, the `overlap_start >=
overlap_end` skip, the `interval_hours <= 0` skip, and the pro-rated
contribution `value_mm * (overlap_hours / interval_hours)`. -/
def qpfContribution (now : ℚ) (e : QpfEntry) : ℚ :=
  match e.start, e.dur_hours, e.value_mm with
  | some start, some dur, some v =>
    let window_end := now + 72
    let entry_end := start + dur
    let overlap_start := max start now
    let overlap_end := min entry_end window_end
    if overlap_start ≥ overlap_end then 0
    else if dur ≤ 0 then 0
    else v * ((overlap_end - overlap_start) / dur)
  | _, _, _ => 0

/-- Embeds `compute_72h_rain_mm` from `src/data_ingestion/nws_fetch.py`:
`total_mm = 0.0` then the accumulation loop over the qpf entries, with
`window_start = now` and `window_end = now + 72h`. -/
def compute_72h_rain_mm (now : ℚ) (qpf : List QpfEntry) : ℚ :=
  qpf.foldl (fun total_mm e => total_mm + qpfContribution now e) 0

/-- One `{value, dateTime}` sample of a USGS time series. `value` is the
result of `float(latest_entry.get("value"))`: `none` models a missing or
unparseable value (the `try/except` skips the series). `dateTime` is the
timestamp on the rational time line; `none` models a missing `dateTime`. -/
structure SampleEntry where
  value : Option ℚ
  dateTime : Option ℚ
deriving DecidableEq, Repr

/-- One block of `payload["value"]["timeSeries"]`. `paramCode` collapses
`series["variable"]["variableCode"][0]["value"]` (it is `none` when the
`variableCode` list is empty or the key missing); `valueBlocks` is the
`series["values"]` list, each block holding its `"value"` sample list. -/
structure TimeSeries where
  paramCode : Option String
  valueBlocks : List (List SampleEntry)
deriving DecidableEq, Repr

/-- The success dict of `fetch_usgs_gauge_data` (the `raw` echo is
omitted). -/
structure UsgsResult where
  gauge_id : String
  timestamp : Option ℚ
  stage_ft : Option ℚ
  discharge_cfs : Option ℚ
deriving DecidableEq, Repr

/-- Mutable loop state of `fetch_usgs_gauge_data`: `stage_ft`,
`discharge_cfs`, `latest_ts`, all initialised to `None`. -/
structure UsgsState where
  stage_ft : Option ℚ
  discharge_cfs : Option ℚ
  latest_ts : Option ℚ
deriving DecidableEq, Repr

/-- One iteration of the series loop in `fetch_usgs_gauge_data` from
`src/data_ingestion/usgs_fetch.py`: skip when `values` is empty, take
`entries = values[0]["value"]`, skip when empty, take
`latest_entry = entries[-1]`, skip when its value does not parse, then
store the value under the matching parameter code and update `latest_ts`
with `timestamp or latest_ts`. -/
def processSeries (st : UsgsState) (s : TimeSeries) : UsgsState :=
  match s.valueBlocks with
  | [] => st
  | block :: _ =>
    match block.getLast? with
    | none => st
    | some latest_entry =>
      match latest_entry.value with
      | none => st
      | some v =>
        let ts :=
          match latest_entry.dateTime with
          | some t => some t
          | none => st.latest_ts
        if s.paramCode = some "00065" then
          { st with stage_ft := some v, latest_ts := ts }
        else if s.paramCode = some "00060" then
          { st with discharge_cfs := some v, latest_ts := ts }
        else st

/-- The sample a series offers to the loop: `values[0]["value"][-1]`, the
positionally last sample of the first value block; `none` when the
`values` list or the sample list is empty (the loop skips the series). -/
def seriesLastSample (s : TimeSeries) : Option SampleEntry :=
  match s.valueBlocks with
  | [] => none
  | block :: _ => block.getLast?

/-- The parsed value of a series' positionally last sample: `none` when
there is no sample or its value does not parse, in which cases the loop
body leaves the state untouched. -/
def seriesLastValue (s : TimeSeries) : Option ℚ :=
  (seriesLastSample s).bind (fun e => e.value)

/-- Embeds the parsing part of `fetch_usgs_gauge_data` from
`src/data_ingestion/usgs_fetch.py`, taking the decoded
`payload["value"]["timeSeries"]` list (the HTTP request and JSON decoding
are outside the embedding): raise on an empty series list, fold the loop,
raise when both values are still `None`, else return the result dict. -/
def fetch_usgs_gauge_data (gauge_id : String) (time_series : List TimeSeries) :
    Except String UsgsResult :=
  match time_series with
  | [] => .error ("No timeSeries data returned for gauge " ++ gauge_id)
  | _ =>
    let st := time_series.foldl processSeries ⟨none, none, none⟩
    if st.stage_ft = none ∧ st.discharge_cfs = none then
      .error ("Missing stage/discharge values for gauge " ++ gauge_id)
    else
      .ok ⟨gauge_id, st.latest_ts, st.stage_ft, st.discharge_cfs⟩

/-- Follows the spec's words, for comparison with the code: the sample of
a series that is chronologically latest, i.e. has the greatest `dateTime`
among samples carrying one (earlier position wins ties, which is
irrelevant for distinct timestamps). -/
def specChronLatest : List SampleEntry → Option SampleEntry
  | [] => none
  | e :: rest =>
    match specChronLatest rest, e.dateTime with
    | none, some _ => some e
    | none, none => none
    | some b, none => some b
    | some b, some t =>
      match b.dateTime with
      | some tb => if tb > t then some b else some e
      | none => some e

/-- Follows the spec's words: the value of the chronologically latest
sample. -/
def specChronLatestValue (entries : List SampleEntry) : Option ℚ :=
  (specChronLatest entries).bind (fun e => e.value)

/-- Python dict lookup on an association list (dict keys are unique, so
first match is the binding). -/
def dlookup {α : Type} (k : String) : List (String × α) → Option α
  | [] => none
  | (k', v) :: rest => if k' = k then some v else dlookup k rest

/-- Python dict assignment `d[k] = v` on an association list: replace the
binding in place when the key exists, else append. -/
def dinsert {α : Type} (k : String) (v : α) : List (String × α) → List (String × α)
  | [] => [(k, v)]
  | (k', v') :: rest => if k' = k then (k, v) :: rest else (k', v') :: dinsert k v rest

/-- Python `str(x)` on an optional string: `str(None)` is the (truthy)
string `"None"`. -/
def pyStr : Option String → String
  | some s => s
  | none => "None"

/-- A per-gauge entry of a `fetch_all_*` result dict: either the fetched
value or the `{"gauge_id": ..., "error": str(exc)}` marker. -/
inductive FetchEntry (α : Type) where
  | ok (v : α)
  | err (msg : String)
deriving DecidableEq, Repr

/-- One gauge of the YAML config as read by
`fetch_all_gauges_forecast` (`id`, `latitude`, `longitude`; a `none`
field models a missing key, for which `.get` returns `None`). -/
structure NwsCfgGauge where
  id : Option String
  latitude : Option ℚ
  longitude : Option ℚ
deriving DecidableEq, Repr

/-- The key under which `fetch_all_gauges_forecast` files a config gauge,
or `none` when the gauge is skipped: the guard `if not gauge_id or lat is
None or lon is None: continue`. -/
def nwsKeyOf (g : NwsCfgGauge) : Option String :=
  let gauge_id := pyStr g.id
  if gauge_id = "" ∨ g.latitude = none ∨ g.longitude = none then none else some gauge_id

/-- The `try/except` body of `fetch_all_gauges_forecast` for one gauge,
with the chain `get_point_metadata` → `fetch_nws_forecast` →
`compute_72h_rain_mm` abstracted as `fetchRain` returning the rain total
or raising: an exception becomes the per-gauge error entry. -/
def nwsRun (fetchRain : String → ℚ → ℚ → Except String ℚ) (gauge_id : String)
    (g : NwsCfgGauge) : FetchEntry ℚ :=
  match g.latitude, g.longitude with
  | some lat, some lon =>
    match fetchRain gauge_id lat lon with
    | .ok rain => .ok rain
    | .error e => .err e
  | _, _ => .err "missing coordinates"

/-- Generic per-gauge loop shared by `fetch_all_gauges` (usgs_fetch) and
`fetch_all_gauges_forecast` (nws_fetch): `results = {}`, then for each
config gauge compute its key, skip when the guard fails, else run the
guarded body and assign `results[gauge_id] = entry`. -/
def gaugeLoop {γ α : Type} (keyOf : γ → Option String) (run : String → γ → FetchEntry α)
    (gauges : List γ) : List (String × FetchEntry α) :=
  gauges.foldl
    (fun results g =>
      match keyOf g with
      | none => results
      | some gauge_id => dinsert gauge_id (run gauge_id g) results)
    []

/-- The loop body of `gaugeLoop` as a named function (identical to the
lambda inside `gaugeLoop`), for stating lemmas about the fold. -/
def gaugeStep {γ α : Type} (keyOf : γ → Option String) (run : String → γ → FetchEntry α)
    (results : List (String × FetchEntry α)) (g : γ) : List (String × FetchEntry α) :=
  match keyOf g with
  | none => results
  | some gauge_id => dinsert gauge_id (run gauge_id g) results

/-- Embeds `fetch_all_gauges_forecast` from `src/data_ingestion/nws_fetch.py`
(the YAML loading is outside the embedding; `gauges` is the loaded list). -/
def fetch_all_gauges_forecast (fetchRain : String → ℚ → ℚ → Except String ℚ)
    (gauges : List NwsCfgGauge) : List (String × FetchEntry ℚ) :=
  gaugeLoop nwsKeyOf (nwsRun fetchRain) gauges

/-- One gauge of the YAML config as read by `fetch_all_gauges` (only the
`id` field is consulted). -/
structure UsgsCfgGauge where
  id : Option String
deriving DecidableEq, Repr

/-- The key under which `fetch_all_gauges` files a config gauge, or `none`
when skipped: the guard `if not gauge_id: continue`. -/
def usgsKeyOf (g : UsgsCfgGauge) : Option String :=
  let gauge_id := pyStr g.id
  if gauge_id = "" then none else some gauge_id

/-- The `try/except` body of `fetch_all_gauges` for one gauge, with the
HTTP-and-parse call `fetch_usgs_gauge_data(gauge_id)` abstracted as
`fetchGauge`: an exception becomes the per-gauge error entry. -/
def usgsRun (fetchGauge : String → Except String UsgsResult) (gauge_id : String)
    (_ : UsgsCfgGauge) : FetchEntry UsgsResult :=
  match fetchGauge gauge_id with
  | .ok r => .ok r
  | .error e => .err e

/-- Embeds `fetch_all_gauges` from `src/data_ingestion/usgs_fetch.py`
(the YAML loading is outside the embedding; `gauges` is the loaded list). -/
def fetch_all_gauges (fetchGauge : String → Except String UsgsResult)
    (gauges : List UsgsCfgGauge) : List (String × FetchEntry UsgsResult) :=
  gaugeLoop usgsKeyOf (usgsRun fetchGauge) gauges

/-- One item of `gauge_config["gauges"]` as read by `classify_all`:
`id` is `none` when the `"id"` key is absent (the comprehension filters
those out), `flood_stage_ft` is `item.get("flood_stage_ft")`. -/
structure GaugeCfgItem where
  id : Option String
  flood_stage_ft : Option ℚ
deriving DecidableEq, Repr

/-- Python `obs.get("stage_ft")` on a per-gauge USGS entry: an error
marker dict has no `stage_ft` key, so it yields `None`. -/
def obsStage : FetchEntry UsgsResult → Option ℚ
  | .ok r => r.stage_ft
  | .err _ => none

/-- Embeds `classify_all` from `src/core/risk_logic.py`: build
`flood_stage_lookup` by the dict comprehension over config items carrying
an `"id"` key, then classify each entry of `usgs_data`, reading
`rain_72h_mm` through `rainfall_data.get(gauge_id, {}).get("rain_72h_mm")`
(a rainfall value of `none` models an entry without that key, e.g. an
error marker). -/
def classify_all (usgs_data : List (String × FetchEntry UsgsResult))
    (rainfall_data : List (String × Option ℚ)) (gauge_config : List GaugeCfgItem)
    (thresholds : Thresholds) : List (String × RiskAssessment) :=
  let flood_stage_lookup :=
    gauge_config.foldl
      (fun m item =>
        match item.id with
        | some i => dinsert i item.flood_stage_ft m
        | none => m)
      ([] : List (String × Option ℚ))
  usgs_data.map (fun p =>
    (p.1,
      classify_gauge p.1 (obsStage p.2) ((dlookup p.1 flood_stage_lookup).join)
        ((dlookup p.1 rainfall_data).join) thresholds))

/-- Helper: `combine` realises the maximum under `rank`, returns one of its
arguments, and is `UNKNOWN` exactly when both arguments are. -/
lemma combine_spec (a b : Risk) :
    rank (combine a b) = max (rank a) (rank b) ∧
    (combine a b = a ∨ combine a b = b) ∧
    (combine a b = .UNKNOWN ↔ a = .UNKNOWN ∧ b = .UNKNOWN) := by
  cases a <;> cases b <;> simp [combine, rank]

/-- Helper: the accumulation loop computes the sum of the per-entry
contributions. -/
lemma compute_72h_rain_mm_eq_sum (now : ℚ) (qpf : List QpfEntry) :
    compute_72h_rain_mm now qpf = (qpf.map (qpfContribution now)).sum := by
  have h : ∀ (l : List QpfEntry) (a : ℚ),
      l.foldl (fun total_mm e => total_mm + qpfContribution now e) a =
        a + (l.map (qpfContribution now)).sum := by
    intro l
    induction l with
    | nil => intro a; simp
    | cons e tl ih => intro a; simp [List.foldl_cons, ih]; ring
  simpa using h qpf 0

/-- C1: the overall `risk` of `classify_gauge` is the more severe of its
two sub-risks under LOW < MEDIUM < HIGH with UNKNOWN ranked strictly
below every known level (so an UNKNOWN sub-risk never overrides a known
one), and it is UNKNOWN exactly when both sub-risks are UNKNOWN. -/
theorem classify_gauge_risk_is_max_of_subrisks (gauge_id : String)
    (stage_ft flood_stage_ft rain_mm_72h : Option ℚ) (thresholds : Thresholds) :
    let res := classify_gauge gauge_id stage_ft flood_stage_ft rain_mm_72h thresholds
    rank res.risk = max (rank res.rain_risk) (rank res.stage_risk) ∧
      (res.risk = res.rain_risk ∨ res.risk = res.stage_risk) ∧
      (res.risk = .UNKNOWN ↔ res.rain_risk = .UNKNOWN ∧ res.stage_risk = .UNKNOWN) :=
  combine_spec _ _

/-- C2: at the input of the repository's own `test_risk_high_by_stage`
(stage_ft = 10, flood_stage_ft = 10, stage bands {0.7, 0.9, 1.0}, rain
10 mm with rain bands {0, 50, 150}) the code yields MEDIUM for the stage
sub-risk and for the overall risk, while that test asserts HIGH for both:
ratio 1.0 fails the strict `ratio > high` comparison at equality. -/
theorem stage_risk_boundary_eval :
    risk_from_stage (some 10) (some 10) ⟨7/10, 9/10, 1⟩ = .MEDIUM ∧
    (classify_gauge "123" (some 10) (some 10) (some 10)
        ⟨⟨0, 50, 150⟩, ⟨7/10, 9/10, 1⟩⟩).stage_risk = .MEDIUM ∧
    (classify_gauge "123" (some 10) (some 10) (some 10)
        ⟨⟨0, 50, 150⟩, ⟨7/10, 9/10, 1⟩⟩).risk = .MEDIUM := by
  refine ⟨?_, ?_, ?_⟩ <;>
    · simp only [classify_gauge, risk_from_stage, risk_from_rain, combine, rank]
      norm_num

/-- C3: for an ascending band triplet, `_risk_from_rain` returns UNKNOWN
on an absent value, LOW at or below `low`, MEDIUM strictly between `low`
and `medium` inclusive, MEDIUM strictly between `medium` and `high`
inclusive, and HIGH exactly when the value is strictly above `high`. -/
theorem risk_from_rain_band_cases (b : Bands) (r : ℚ)
    (h1 : b.low ≤ b.medium) (h2 : b.medium ≤ b.high) :
    risk_from_rain none b = .UNKNOWN ∧
      (r ≤ b.low → risk_from_rain (some r) b = .LOW) ∧
      (b.low < r → r ≤ b.medium → risk_from_rain (some r) b = .MEDIUM) ∧
      (b.medium < r → r ≤ b.high → risk_from_rain (some r) b = .MEDIUM) ∧
      (risk_from_rain (some r) b = .HIGH ↔ b.high < r) := by
  refine ⟨rfl, ?_, ?_, ?_, ?_⟩
  · intro h
    simp only [risk_from_rain]
    rw [if_pos (le_trans h h1), if_pos h]
  · intro hl hm
    simp only [risk_from_rain]
    rw [if_pos hm, if_neg (not_le.mpr hl)]
  · intro hm hh
    simp only [risk_from_rain]
    rw [if_neg (not_le.mpr hm), if_neg (not_lt.mpr hh)]
  · simp only [risk_from_rain]
    split_ifs with hm hl hh
    · simp only [reduceCtorEq, false_iff]
      intro h
      linarith
    · simp only [reduceCtorEq, false_iff]
      intro h
      linarith
    · simp only [true_iff]
      exact hh
    · simp only [reduceCtorEq, false_iff]
      intro h
      linarith

/-- Witness for C3 at the repository's rainfall bands {0, 50, 150}. -/
theorem risk_from_rain_band_cases_witness :
    risk_from_rain none ⟨0, 50, 150⟩ = .UNKNOWN ∧
    risk_from_rain (some (-5)) ⟨0, 50, 150⟩ = .LOW ∧
    risk_from_rain (some 30) ⟨0, 50, 150⟩ = .MEDIUM ∧
    risk_from_rain (some 100) ⟨0, 50, 150⟩ = .MEDIUM ∧
    (risk_from_rain (some 200) ⟨0, 50, 150⟩ = .HIGH ↔ (150 : ℚ) < 200) := by
  have hlm : (Bands.mk 0 50 150).low ≤ (Bands.mk 0 50 150).medium := by
    show (0 : ℚ) ≤ 50
    norm_num
  have hmh : (Bands.mk 0 50 150).medium ≤ (Bands.mk 0 50 150).high := by
    show (50 : ℚ) ≤ 150
    norm_num
  refine ⟨(risk_from_rain_band_cases ⟨0, 50, 150⟩ 0 hlm hmh).1,
    (risk_from_rain_band_cases ⟨0, 50, 150⟩ (-5) hlm hmh).2.1 ?_,
    (risk_from_rain_band_cases ⟨0, 50, 150⟩ 30 hlm hmh).2.2.1 ?_ ?_,
    (risk_from_rain_band_cases ⟨0, 50, 150⟩ 100 hlm hmh).2.2.2.1 ?_ ?_,
    (risk_from_rain_band_cases ⟨0, 50, 150⟩ 200 hlm hmh).2.2.2.2⟩
  · show (-5 : ℚ) ≤ 0
    norm_num
  · show (0 : ℚ) < 30
    norm_num
  · show (30 : ℚ) ≤ 50
    norm_num
  · show (50 : ℚ) < 100
    norm_num
  · show (100 : ℚ) ≤ 150
    norm_num

/-- C8: `_risk_from_stage` returns UNKNOWN (it is total, so no error is
raised and the division is never reached) whenever `stage_ft` is absent,
`flood_stage_ft` is absent, or `flood_stage_ft` is zero, regardless of
the other input. -/
theorem risk_from_stage_absent_or_zero_unknown (stage_ft flood_stage_ft : Option ℚ)
    (b : Bands)
    (h : stage_ft = none ∨ flood_stage_ft = none ∨ flood_stage_ft = some 0) :
    risk_from_stage stage_ft flood_stage_ft b = .UNKNOWN := by
  rcases h with h | h | h
  · subst h
    cases flood_stage_ft <;> rfl
  · subst h
    cases stage_ft <;> rfl
  · subst h
    cases stage_ft with
    | none => rfl
    | some s => simp [risk_from_stage]

/-- Witness for C8: the three guard cases at the repository's stage
bands. -/
theorem risk_from_stage_absent_or_zero_unknown_witness :
    risk_from_stage none (some 5) ⟨7/10, 9/10, 1⟩ = .UNKNOWN ∧
    risk_from_stage (some 3) none ⟨7/10, 9/10, 1⟩ = .UNKNOWN ∧
    risk_from_stage (some 3) (some 0) ⟨7/10, 9/10, 1⟩ = .UNKNOWN :=
  ⟨risk_from_stage_absent_or_zero_unknown _ _ _ (Or.inl rfl),
   risk_from_stage_absent_or_zero_unknown _ _ _ (Or.inr (Or.inl rfl)),
   risk_from_stage_absent_or_zero_unknown _ _ _ (Or.inr (Or.inr rfl))⟩

/-- C9: `_parse_valid_time` normalizes both duration encodings to hours:
a `PT<n>H` duration part parses to `n` hours and a `PT<n>M` part to
`n / 60` hours (the start instant is passed through unchanged). -/
theorem parse_valid_time_duration_normalized (s n : ℚ) :
    parse_valid_time ⟨s, .hoursEnc n⟩ = (s, n) ∧
      parse_valid_time ⟨s, .minutesEnc n⟩ = (s, n / 60) :=
  ⟨rfl, rfl⟩

/-- C4: the 72h rainfall total is the sum of per-period contributions,
where a period with positive overlap contributes
`value_mm * (overlap_hours / duration_hours)`: a period fully inside the
window contributes its full value, one whose overlap is half its duration
contributes half its value, one without positive overlap contributes
zero, and a period of zero or negative duration contributes zero (both
guards skip it before the division is reached). -/
theorem compute_72h_rain_mm_prorates (now : ℚ) (qpf : List QpfEntry) :
    compute_72h_rain_mm now qpf = (qpf.map (qpfContribution now)).sum ∧
      ∀ s d v : ℚ,
        (max s now < min (s + d) (now + 72) → 0 < d →
          qpfContribution now ⟨some s, some d, some v⟩ =
            v * ((min (s + d) (now + 72) - max s now) / d)) ∧
        (now ≤ s → s + d ≤ now + 72 → 0 < d →
          qpfContribution now ⟨some s, some d, some v⟩ = v) ∧
        (0 < d → min (s + d) (now + 72) - max s now = d / 2 →
          qpfContribution now ⟨some s, some d, some v⟩ = v / 2) ∧
        (min (s + d) (now + 72) ≤ max s now →
          qpfContribution now ⟨some s, some d, some v⟩ = 0) ∧
        (d ≤ 0 → qpfContribution now ⟨some s, some d, some v⟩ = 0) := by
  have hgen : ∀ s d v : ℚ, max s now < min (s + d) (now + 72) → 0 < d →
      qpfContribution now ⟨some s, some d, some v⟩ =
        v * ((min (s + d) (now + 72) - max s now) / d) := by
    intro s d v hlt hd
    simp only [qpfContribution]
    rw [if_neg (not_le.mpr hlt), if_neg (not_le.mpr hd)]
  refine ⟨compute_72h_rain_mm_eq_sum now qpf, fun s d v => ⟨hgen s d v, ?_, ?_, ?_, ?_⟩⟩
  · intro hs he hd
    have hmax : max s now = s := max_eq_left hs
    have hmin : min (s + d) (now + 72) = s + d := min_eq_left he
    have hlt : max s now < min (s + d) (now + 72) := by
      rw [hmax, hmin]
      linarith
    rw [hgen s d v hlt hd, hmax, hmin]
    rw [show s + d - s = d by ring, div_self (ne_of_gt hd), mul_one]
  · intro hd hhalf
    have hlt : max s now < min (s + d) (now + 72) := by linarith
    rw [hgen s d v hlt hd, hhalf]
    have hd' : d ≠ 0 := ne_of_gt hd
    field_simp
    ring
  · intro hle
    simp only [qpfContribution]
    rw [if_pos hle]
  · intro hd
    simp only [qpfContribution]
    split_ifs with h1 <;> rfl

/-- Witness for C4: a fully contained period at the window's concrete
bounds contributes 5 mm, a half-overlapping one 2.5 mm, a period outside
the window 0, a zero-duration period 0, and the loop total is the sum of
contributions. -/
theorem compute_72h_rain_mm_prorates_witness :
    qpfContribution 0 ⟨some 1, some 2, some 5⟩ = 5 ∧
    qpfContribution 0 ⟨some 71, some 2, some 5⟩ = 5 / 2 ∧
    qpfContribution 0 ⟨some 100, some 2, some 5⟩ = 0 ∧
    qpfContribution 0 ⟨some 3, some 0, some 5⟩ = 0 ∧
    compute_72h_rain_mm 0 [⟨some 1, some 2, some 5⟩, ⟨some 100, some 2, some 5⟩] =
      ([⟨some 1, some 2, some 5⟩, ⟨some 100, some 2, some 5⟩].map (qpfContribution 0)).sum := by
  obtain ⟨hsum, hparts⟩ :=
    compute_72h_rain_mm_prorates 0 [⟨some 1, some 2, some 5⟩, ⟨some 100, some 2, some 5⟩]
  refine ⟨(hparts 1 2 5).2.1 ?_ ?_ ?_, (hparts 71 2 5).2.2.1 ?_ ?_,
    (hparts 100 2 5).2.2.2.1 ?_, (hparts 3 0 5).2.2.2.2 ?_, hsum⟩ <;> norm_num

/-- C5 counterexample: a forecast whose single period carries a negative
`value_mm` (fully inside the window) makes `compute_72h_rain_mm` return a
negative total, refuting non-negativity over arbitrary `value_mm`. -/
theorem compute_72h_rain_mm_negative_counterexample :
    compute_72h_rain_mm 0 [⟨some 0, some 1, some (-1)⟩] < 0 := by
  norm_num [compute_72h_rain_mm, qpfContribution]

/-- C5 amended: when every period's `value_mm` (where present) is
non-negative, `compute_72h_rain_mm` returns a non-negative total, for
every reference time and collection of periods. -/
theorem compute_72h_rain_mm_nonneg_of_nonneg_values (now : ℚ) (qpf : List QpfEntry)
    (h : ∀ e ∈ qpf, ∀ v : ℚ, e.value_mm = some v → 0 ≤ v) :
    0 ≤ compute_72h_rain_mm now qpf := by
  rw [compute_72h_rain_mm_eq_sum]
  apply List.sum_nonneg
  intro x hx
  simp only [List.mem_map] at hx
  obtain ⟨e, he, rfl⟩ := hx
  rcases e with ⟨s, d, v⟩
  cases s with
  | none => simp [qpfContribution]
  | some s =>
    cases d with
    | none => simp [qpfContribution]
    | some d =>
      cases v with
      | none => simp [qpfContribution]
      | some v =>
        have hv : 0 ≤ v := h ⟨some s, some d, some v⟩ he v rfl
        simp only [qpfContribution]
        split_ifs with h1 h2
        · exact le_refl 0
        · exact le_refl 0
        · push_neg at h1 h2
          have hpos : (0 : ℚ) < (min (s + d) (now + 72) - max s now) / d :=
            div_pos (by linarith) h2
          exact mul_nonneg hv hpos.le

/-- Witness for C5 amended: a concrete two-period forecast with
non-negative values yields a non-negative total. -/
theorem compute_72h_rain_mm_nonneg_witness :
    0 ≤ compute_72h_rain_mm 0 [⟨some 1, some 2, some 5⟩, ⟨some 100, some 2, some 0⟩] := by
  apply compute_72h_rain_mm_nonneg_of_nonneg_values
  intro e he v hv
  fin_cases he <;> (injection hv with hh; rw [← hh]; try norm_num)

/-- Helper: lookup after a dict assignment. -/
lemma dlookup_dinsert {α : Type} (k k' : String) (v : α) (m : List (String × α)) :
    dlookup k (dinsert k' v m) = if k' = k then some v else dlookup k m := by
  induction m with
  | nil => simp [dinsert, dlookup]
  | cons p rest ih =>
    obtain ⟨k'', v''⟩ := p
    simp only [dinsert]
    by_cases h1 : k'' = k'
    · subst h1
      rw [if_pos rfl]
      by_cases h2 : k'' = k <;> simp [dlookup, h2]
    · rw [if_neg h1]
      by_cases h2 : k'' = k
      · subst h2
        have h3 : k' ≠ k'' := fun h => h1 h.symm
        simp [dlookup, h3]
      · simp [dlookup, h2, ih]

/-- Helper: `gaugeLoop` is a fold of `gaugeStep`. -/
lemma gaugeLoop_eq_foldl {γ α : Type} (keyOf : γ → Option String)
    (run : String → γ → FetchEntry α) (gauges : List γ) :
    gaugeLoop keyOf run gauges = gauges.foldl (gaugeStep keyOf run) [] := rfl

/-- Helper: one loop step never removes a key already present. -/
lemma dlookup_gaugeStep_isSome {γ α : Type} (keyOf : γ → Option String)
    (run : String → γ → FetchEntry α) (acc : List (String × FetchEntry α)) (g : γ)
    (k : String) (h : (dlookup k acc).isSome = true) :
    (dlookup k (gaugeStep keyOf run acc g)).isSome = true := by
  unfold gaugeStep
  cases hk : keyOf g with
  | none => exact h
  | some gid =>
    rw [dlookup_dinsert]
    by_cases hg : gid = k
    · simp [hg]
    · simp [hg, h]

/-- Helper: the whole loop never removes a key already present. -/
lemma dlookup_foldl_isSome {γ α : Type} (keyOf : γ → Option String)
    (run : String → γ → FetchEntry α) :
    ∀ (gauges : List γ) (acc : List (String × FetchEntry α)) (k : String),
      (dlookup k acc).isSome = true →
      (dlookup k (gauges.foldl (gaugeStep keyOf run) acc)).isSome = true
  | [], acc, k, h => h
  | g :: rest, acc, k, h => by
    simp only [List.foldl_cons]
    exact dlookup_foldl_isSome keyOf run rest _ k
      (dlookup_gaugeStep_isSome keyOf run acc g k h)

/-- Helper: a gauge the guard accepts ends up with an entry under its key. -/
lemma gaugeLoop_aux_isSome {γ α : Type} (keyOf : γ → Option String)
    (run : String → γ → FetchEntry α) (g : γ) (gid : String)
    (hkey : keyOf g = some gid) :
    ∀ (l : List γ), g ∈ l → ∀ acc : List (String × FetchEntry α),
      (dlookup gid (l.foldl (gaugeStep keyOf run) acc)).isSome = true
  | [], h => absurd h (List.not_mem_nil g)
  | g' :: rest, h => by
    intro acc
    simp only [List.foldl_cons]
    rcases List.mem_cons.mp h with rfl | h'
    · apply dlookup_foldl_isSome
      unfold gaugeStep
      rw [hkey, dlookup_dinsert, if_pos rfl]
      rfl
    · exact gaugeLoop_aux_isSome keyOf run g gid hkey rest h' _

/-- Helper: every member of the config whose guard passes has an entry in
the loop's result. -/
lemma gaugeLoop_mem_isSome {γ α : Type} (keyOf : γ → Option String)
    (run : String → γ → FetchEntry α) (gauges : List γ) (g : γ) (gid : String)
    (hmem : g ∈ gauges) (hkey : keyOf g = some gid) :
    (dlookup gid (gaugeLoop keyOf run gauges)).isSome = true := by
  rw [gaugeLoop_eq_foldl]
  exact gaugeLoop_aux_isSome keyOf run g gid hkey gauges hmem []

/-- Helper: gauges whose key differs from `k` leave the binding of `k`
untouched. -/
lemma dlookup_foldl_no_key {γ α : Type} (keyOf : γ → Option String)
    (run : String → γ → FetchEntry α) :
    ∀ (l : List γ) (k : String), (∀ g' ∈ l, keyOf g' ≠ some k) →
      ∀ acc : List (String × FetchEntry α),
        dlookup k (l.foldl (gaugeStep keyOf run) acc) = dlookup k acc
  | [], _, _ => fun _ => rfl
  | g' :: rest, k, h => by
    intro acc
    simp only [List.foldl_cons]
    rw [dlookup_foldl_no_key keyOf run rest k
      (fun x hx => h x (List.mem_cons_of_mem _ hx)) _]
    unfold gaugeStep
    cases hk : keyOf g' with
    | none => rfl
    | some gid =>
      have hne : gid ≠ k := fun he => h g' (List.mem_cons_self _ _) (by rw [hk, he])
      rw [dlookup_dinsert, if_neg hne]

/-- Helper: the entry under a key is the one written for the last accepted
gauge carrying that key. -/
lemma gaugeLoop_last_entry {γ α : Type} (keyOf : γ → Option String)
    (run : String → γ → FetchEntry α) (pre : List γ) (g : γ) (post : List γ)
    (gid : String) (hkey : keyOf g = some gid)
    (hpost : ∀ g' ∈ post, keyOf g' ≠ some gid) :
    dlookup gid (gaugeLoop keyOf run (pre ++ g :: post)) = some (run gid g) := by
  rw [gaugeLoop_eq_foldl, List.foldl_append, List.foldl_cons]
  rw [dlookup_foldl_no_key keyOf run post gid hpost _]
  unfold gaugeStep
  rw [hkey, dlookup_dinsert, if_pos rfl]

/-- C6 counterexample: a response whose two samples for parameter 00065
are out of chronological order. `fetch_usgs_gauge_data` retains the
positionally last sample (value 8, timestamp 6), while the
chronologically latest sample (timestamp 12) has value 9 — selection is
by array position, not by timestamp. -/
theorem usgs_latest_by_position_counterexample :
    fetch_usgs_gauge_data "11447650"
        [⟨some "00065", [[⟨some 9, some 12⟩, ⟨some 8, some 6⟩]]⟩] =
      .ok ⟨"11447650", some 6, some 8, none⟩ ∧
    specChronLatestValue [⟨some 9, some 12⟩, ⟨some 8, some 6⟩] = some 9 := by
  constructor
  · rfl
  · norm_num [specChronLatestValue, specChronLatest]

/-- Helper: effect of one series on the retained stage value — overwrite
with the series' positionally last parseable sample when its parameter
code is 00065, keep the old value otherwise. -/
lemma processSeries_stage (st : UsgsState) (s : TimeSeries) :
    (processSeries st s).stage_ft =
      match seriesLastValue s with
      | some v => if s.paramCode = some "00065" then some v else st.stage_ft
      | none => st.stage_ft := by
  obtain ⟨pc, blocks⟩ := s
  cases blocks with
  | nil => rfl
  | cons block rest =>
    cases hgl : block.getLast? with
    | none => simp [processSeries, seriesLastValue, seriesLastSample, hgl]
    | some e =>
      cases hev : e.value with
      | none => simp [processSeries, seriesLastValue, seriesLastSample, hgl, hev]
      | some v =>
        by_cases h65 : pc = some "00065"
        · simp [processSeries, seriesLastValue, seriesLastSample, hgl, hev, h65]
        · by_cases h60 : pc = some "00060" <;>
            simp [processSeries, seriesLastValue, seriesLastSample, hgl, hev, h65, h60]

/-- Helper: effect of one series on the retained discharge value —
overwrite with the series' positionally last parseable sample when its
parameter code is 00060 (which excludes the 00065 branch), keep the old
value otherwise. -/
lemma processSeries_discharge (st : UsgsState) (s : TimeSeries) :
    (processSeries st s).discharge_cfs =
      match seriesLastValue s with
      | some v => if s.paramCode = some "00060" then some v else st.discharge_cfs
      | none => st.discharge_cfs := by
  obtain ⟨pc, blocks⟩ := s
  cases blocks with
  | nil => rfl
  | cons block rest =>
    cases hgl : block.getLast? with
    | none => simp [processSeries, seriesLastValue, seriesLastSample, hgl]
    | some e =>
      cases hev : e.value with
      | none => simp [processSeries, seriesLastValue, seriesLastSample, hgl, hev]
      | some v =>
        by_cases h65 : pc = some "00065"
        · subst h65
          simp [processSeries, seriesLastValue, seriesLastSample, hgl, hev]
        · by_cases h60 : pc = some "00060" <;>
            simp [processSeries, seriesLastValue, seriesLastSample, hgl, hev, h65, h60]

/-- Helper: series that yield no parseable 00065 sample leave the stage
value untouched. -/
lemma foldl_stage_no_contrib :
    ∀ (post : List TimeSeries) (st : UsgsState),
      (∀ s' ∈ post, s'.paramCode = some "00065" → seriesLastValue s' = none) →
      (post.foldl processSeries st).stage_ft = st.stage_ft
  | [], _, _ => rfl
  | s' :: rest, st, h => by
    simp only [List.foldl_cons]
    rw [foldl_stage_no_contrib rest _ (fun x hx => h x (List.mem_cons_of_mem _ hx))]
    rw [processSeries_stage]
    cases hv : seriesLastValue s' with
    | none => rfl
    | some v =>
      by_cases hp : s'.paramCode = some "00065"
      · have hc := h s' (List.mem_cons_self _ _) hp
        rw [hv] at hc
        exact absurd hc (by simp)
      · simp [hp]

/-- Helper: series that yield no parseable 00060 sample leave the
discharge value untouched. -/
lemma foldl_discharge_no_contrib :
    ∀ (post : List TimeSeries) (st : UsgsState),
      (∀ s' ∈ post, s'.paramCode = some "00060" → seriesLastValue s' = none) →
      (post.foldl processSeries st).discharge_cfs = st.discharge_cfs
  | [], _, _ => rfl
  | s' :: rest, st, h => by
    simp only [List.foldl_cons]
    rw [foldl_discharge_no_contrib rest _ (fun x hx => h x (List.mem_cons_of_mem _ hx))]
    rw [processSeries_discharge]
    cases hv : seriesLastValue s' with
    | none => rfl
    | some v =>
      by_cases hp : s'.paramCode = some "00060"
      · have hc := h s' (List.mem_cons_self _ _) hp
        rw [hv] at hc
        exact absurd hc (by simp)
      · simp [hp]

/-- C6 amended: for every response and each parameter (00065 stage, 00060
discharge), the value `fetch_usgs_gauge_data` retains is that of the
positionally last sample (`values[0]["value"][-1]`) of the positionally
last series for that parameter that yields a parseable sample — selection
by array position, which coincides with the chronologically latest sample
only when the response arrays are chronologically ordered. -/
theorem usgs_retains_positionally_last (gauge_id : String)
    (time_series : List TimeSeries) :
    (∀ (pre : List TimeSeries) (s : TimeSeries) (post : List TimeSeries)
        (e : SampleEntry) (v : ℚ),
      time_series = pre ++ s :: post → s.paramCode = some "00065" →
      seriesLastSample s = some e → e.value = some v →
      (∀ s' ∈ post, s'.paramCode = some "00065" → seriesLastValue s' = none) →
      ∃ r, fetch_usgs_gauge_data gauge_id time_series = .ok r ∧ r.stage_ft = some v) ∧
    (∀ (pre : List TimeSeries) (s : TimeSeries) (post : List TimeSeries)
        (e : SampleEntry) (v : ℚ),
      time_series = pre ++ s :: post → s.paramCode = some "00060" →
      seriesLastSample s = some e → e.value = some v →
      (∀ s' ∈ post, s'.paramCode = some "00060" → seriesLastValue s' = none) →
      ∃ r, fetch_usgs_gauge_data gauge_id time_series = .ok r ∧
        r.discharge_cfs = some v) := by
  constructor
  · intro pre s post e v hts hpc hsamp hval hpost
    subst hts
    have hlv : seriesLastValue s = some v := by
      simp [seriesLastValue, hsamp, hval]
    have hstage : ((pre ++ s :: post).foldl processSeries ⟨none, none, none⟩).stage_ft =
        some v := by
      rw [List.foldl_append, List.foldl_cons]
      rw [foldl_stage_no_contrib post _ hpost, processSeries_stage, hlv]
      simp [hpc]
    cases hcons : pre ++ s :: post with
    | nil => exact absurd hcons (by simp)
    | cons hd tl =>
      rw [hcons] at hstage
      have hne : ¬(((hd :: tl).foldl processSeries ⟨none, none, none⟩).stage_ft = none ∧
          ((hd :: tl).foldl processSeries ⟨none, none, none⟩).discharge_cfs = none) := by
        intro hc
        rw [hstage] at hc
        exact absurd hc.1 (by simp)
      refine ⟨⟨gauge_id, ((hd :: tl).foldl processSeries ⟨none, none, none⟩).latest_ts,
        ((hd :: tl).foldl processSeries ⟨none, none, none⟩).stage_ft,
        ((hd :: tl).foldl processSeries ⟨none, none, none⟩).discharge_cfs⟩, ?_, ?_⟩
      · simp only [fetch_usgs_gauge_data]
        rw [if_neg hne]
      · exact hstage
  · intro pre s post e v hts hpc hsamp hval hpost
    subst hts
    have hlv : seriesLastValue s = some v := by
      simp [seriesLastValue, hsamp, hval]
    have hdis : ((pre ++ s :: post).foldl processSeries
        ⟨none, none, none⟩).discharge_cfs = some v := by
      rw [List.foldl_append, List.foldl_cons]
      rw [foldl_discharge_no_contrib post _ hpost, processSeries_discharge, hlv]
      simp [hpc]
    cases hcons : pre ++ s :: post with
    | nil => exact absurd hcons (by simp)
    | cons hd tl =>
      rw [hcons] at hdis
      have hne : ¬(((hd :: tl).foldl processSeries ⟨none, none, none⟩).stage_ft = none ∧
          ((hd :: tl).foldl processSeries ⟨none, none, none⟩).discharge_cfs = none) := by
        intro hc
        rw [hdis] at hc
        exact absurd hc.2 (by simp)
      refine ⟨⟨gauge_id, ((hd :: tl).foldl processSeries ⟨none, none, none⟩).latest_ts,
        ((hd :: tl).foldl processSeries ⟨none, none, none⟩).stage_ft,
        ((hd :: tl).foldl processSeries ⟨none, none, none⟩).discharge_cfs⟩, ?_, ?_⟩
      · simp only [fetch_usgs_gauge_data]
        rw [if_neg hne]
      · exact hdis

/-- Witness for C6 amended: a three-series response — an out-of-order
stage series, an out-of-order discharge series, and a trailing 00065
series with an empty sample list (which must not overwrite). The retained
stage is the positionally last stage sample's value 8 and the retained
discharge the positionally last discharge sample's value 200. -/
theorem usgs_retains_positionally_last_witness :
    (∃ r, fetch_usgs_gauge_data "g"
        [⟨some "00065", [[⟨some 9, some 12⟩, ⟨some 8, some 6⟩]]⟩,
         ⟨some "00060", [[⟨some 100, some 3⟩, ⟨some 200, some 2⟩]]⟩,
         ⟨some "00065", [[]]⟩] = .ok r ∧ r.stage_ft = some 8) ∧
    (∃ r, fetch_usgs_gauge_data "g"
        [⟨some "00065", [[⟨some 9, some 12⟩, ⟨some 8, some 6⟩]]⟩,
         ⟨some "00060", [[⟨some 100, some 3⟩, ⟨some 200, some 2⟩]]⟩,
         ⟨some "00065", [[]]⟩] = .ok r ∧ r.discharge_cfs = some 200) := by
  obtain ⟨hs, hd⟩ := usgs_retains_positionally_last "g"
    [⟨some "00065", [[⟨some 9, some 12⟩, ⟨some 8, some 6⟩]]⟩,
     ⟨some "00060", [[⟨some 100, some 3⟩, ⟨some 200, some 2⟩]]⟩,
     ⟨some "00065", [[]]⟩]
  exact ⟨hs [] ⟨some "00065", [[⟨some 9, some 12⟩, ⟨some 8, some 6⟩]]⟩
      [⟨some "00060", [[⟨some 100, some 3⟩, ⟨some 200, some 2⟩]]⟩, ⟨some "00065", [[]]⟩]
      ⟨some 8, some 6⟩ 8 rfl rfl rfl rfl (by decide),
    hd [⟨some "00065", [[⟨some 9, some 12⟩, ⟨some 8, some 6⟩]]⟩]
      ⟨some "00060", [[⟨some 100, some 3⟩, ⟨some 200, some 2⟩]]⟩ [⟨some "00065", [[]]⟩]
      ⟨some 200, some 2⟩ 200 rfl rfl rfl rfl (by decide)⟩

/-- C7 counterexample: a configured gauge whose longitude is missing from
the config is skipped without any entry — the returned mapping is empty
although one gauge is configured, so the mapping does not contain one
entry per configured gauge. -/
theorem fetch_all_missing_gauge_counterexample :
    fetch_all_gauges_forecast (fun _ _ _ => Except.ok 0)
        [⟨some "g1", some 38, none⟩] = [] ∧
    dlookup "g1" (fetch_all_gauges_forecast (fun _ _ _ => Except.ok 0)
        [⟨some "g1", some 38, none⟩]) = none := by
  constructor <;> rfl

/-- C7 amended: for gauges carrying the required config fields (the guard
key is `some`), a fetch exception is caught and recorded as an error
entry under the gauge's identifier and every such configured gauge has an
entry in the returned mapping — for both the forecast loop
(`fetch_all_gauges_forecast`) and the stage loop (`fetch_all_gauges`);
gauges whose guard fails (missing id/coordinates) are skipped and absent. -/
theorem fetch_all_per_gauge_isolation
    (fetchRain : String → ℚ → ℚ → Except String ℚ) (ngauges : List NwsCfgGauge)
    (fetchGauge : String → Except String UsgsResult) (ugauges : List UsgsCfgGauge) :
    (∀ g ∈ ngauges, ∀ gid, nwsKeyOf g = some gid →
        (dlookup gid (fetch_all_gauges_forecast fetchRain ngauges)).isSome = true) ∧
      (∀ (pre : List NwsCfgGauge) (g : NwsCfgGauge) (post : List NwsCfgGauge)
          (gid : String) (lat lon : ℚ) (e : String),
        ngauges = pre ++ g :: post → nwsKeyOf g = some gid →
        g.latitude = some lat → g.longitude = some lon →
        (∀ g' ∈ post, nwsKeyOf g' ≠ some gid) → fetchRain gid lat lon = .error e →
        dlookup gid (fetch_all_gauges_forecast fetchRain ngauges) = some (.err e)) ∧
      (∀ g ∈ ugauges, ∀ gid, usgsKeyOf g = some gid →
        (dlookup gid (fetch_all_gauges fetchGauge ugauges)).isSome = true) ∧
      (∀ (pre : List UsgsCfgGauge) (g : UsgsCfgGauge) (post : List UsgsCfgGauge)
          (gid : String) (e : String),
        ugauges = pre ++ g :: post → usgsKeyOf g = some gid →
        (∀ g' ∈ post, usgsKeyOf g' ≠ some gid) → fetchGauge gid = .error e →
        dlookup gid (fetch_all_gauges fetchGauge ugauges) = some (.err e)) := by
  refine ⟨?_, ?_, ?_, ?_⟩
  · intro g hg gid hk
    exact gaugeLoop_mem_isSome nwsKeyOf (nwsRun fetchRain) ngauges g gid hg hk
  · intro pre g post gid lat lon e hsplit hkey hlat hlon hpost hfetch
    subst hsplit
    unfold fetch_all_gauges_forecast
    rw [gaugeLoop_last_entry nwsKeyOf (nwsRun fetchRain) pre g post gid hkey hpost]
    simp [nwsRun, hlat, hlon, hfetch]
  · intro g hg gid hk
    exact gaugeLoop_mem_isSome usgsKeyOf (usgsRun fetchGauge) ugauges g gid hg hk
  · intro pre g post gid e hsplit hkey hpost hfetch
    subst hsplit
    unfold fetch_all_gauges
    rw [gaugeLoop_last_entry usgsKeyOf (usgsRun fetchGauge) pre g post gid hkey hpost]
    simp [usgsRun, hfetch]

/-- Witness for C7 amended: two-gauge configs where the first gauge's
fetch raises and the second succeeds — the error is recorded under the
failing gauge's id and the other gauge still gets its entry, in both
loops. -/
theorem fetch_all_per_gauge_isolation_witness :
    dlookup "g1" (fetch_all_gauges_forecast
        (fun gid _ _ => if gid = "g1" then .error "boom" else .ok 5)
        [⟨some "g1", some 38, some 121⟩, ⟨some "g2", some 39, some 120⟩]) =
      some (.err "boom") ∧
    (dlookup "g2" (fetch_all_gauges_forecast
        (fun gid _ _ => if gid = "g1" then .error "boom" else .ok 5)
        [⟨some "g1", some 38, some 121⟩, ⟨some "g2", some 39, some 120⟩])).isSome = true ∧
    dlookup "u1" (fetch_all_gauges
        (fun gid => if gid = "u1" then .error "net" else .ok ⟨gid, none, some 1, none⟩)
        [⟨some "u1"⟩, ⟨some "u2"⟩]) = some (.err "net") ∧
    (dlookup "u2" (fetch_all_gauges
        (fun gid => if gid = "u1" then .error "net" else .ok ⟨gid, none, some 1, none⟩)
        [⟨some "u1"⟩, ⟨some "u2"⟩])).isSome = true := by
  obtain ⟨hn1, hn2, hu1, hu2⟩ := fetch_all_per_gauge_isolation
    (fun gid _ _ => if gid = "g1" then .error "boom" else .ok 5)
    [⟨some "g1", some 38, some 121⟩, ⟨some "g2", some 39, some 120⟩]
    (fun gid => if gid = "u1" then .error "net" else .ok ⟨gid, none, some 1, none⟩)
    [⟨some "u1"⟩, ⟨some "u2"⟩]
  refine ⟨?_, ?_, ?_, ?_⟩
  · exact hn2 [] ⟨some "g1", some 38, some 121⟩ [⟨some "g2", some 39, some 120⟩]
      "g1" 38 121 "boom" rfl rfl rfl rfl (by decide) (by simp)
  · exact hn1 ⟨some "g2", some 39, some 120⟩ (by simp) "g2" rfl
  · exact hu2 [] ⟨some "u1"⟩ [⟨some "u2"⟩] "u1" "net" rfl rfl (by decide) (by simp)
  · exact hu1 ⟨some "u2"⟩ (by simp) "u2" rfl

/-- C10: `classify_all` returns a mapping with exactly the keys of
`usgs_data` — the id list is preserved, so a gauge configured or carrying
rainfall but absent from `usgs_data` gets no entry, and every key of
`usgs_data` gets one regardless of the config and rainfall mappings. -/
theorem classify_all_keys_match (usgs_data : List (String × FetchEntry UsgsResult))
    (rainfall_data : List (String × Option ℚ)) (gauge_config : List GaugeCfgItem)
    (thresholds : Thresholds) :
    (classify_all usgs_data rainfall_data gauge_config thresholds).map Prod.fst =
        usgs_data.map Prod.fst ∧
      ∀ gid, (dlookup gid (classify_all usgs_data rainfall_data gauge_config
          thresholds)).isSome = (dlookup gid usgs_data).isSome := by
  constructor
  · simp only [classify_all]
    rw [List.map_map]
    rfl
  · intro gid
    simp only [classify_all]
    induction usgs_data with
    | nil => rfl
    | cons p rest ih =>
      obtain ⟨k, v⟩ := p
      by_cases h : k = gid
      · simp only [List.map_cons, dlookup, if_pos h, Option.isSome_some]
      · simp only [List.map_cons, dlookup, if_neg h]
        exact ih

end FloodWarning
